import Mathlib

/-!
Shallow embedding of the IP-whitelist middleware of `src/backend/main.py`
(`IPWhitelistMiddleware`, its `dispatch` and `_is_ip_allowed` methods, the
`allowed_ips` startup configuration, and the `/health` endpoint), together
with the parts of Python's `ipaddress` standard library that `_is_ip_allowed`
calls (`ip_address` and `ip_network` with `strict=False`).

Python strings are modelled as `String`; the character-level operations the
source uses (`str.split` on a one-character separator, `str.strip`,
substring test `'/' in s`) are modelled structurally over `String.data`.
Python `try/except ValueError` around parsing is modelled by `Option`:
`none` is a parse failure, and a failing parse makes the enclosing rule be
skipped, exactly as the `except ...: continue` in the source does.
-/

/-- Splits a character list at every occurrence of the separator, as Python's
`str.split(sep)` does for a one-character separator: the result always has
one more piece than there are separators, and pieces may be empty. -/
def splitOnChar (sep : Char) : List Char → List (List Char)
  | [] => [[]]
  | c :: cs =>
    let rest := splitOnChar sep cs
    if c == sep then [] :: rest
    else
      match rest with
      | r :: rs => (c :: r) :: rs
      | [] => [[c]]

/-- The characters Python's `str.strip()` removes: exactly those for which
`str.isspace()` holds — ASCII whitespace, the C0 information separators,
NEL, NBSP, and the Unicode space characters. -/
def isPySpace (c : Char) : Bool :=
  decide ((9 ≤ c.toNat ∧ c.toNat ≤ 13) ∨ (28 ≤ c.toNat ∧ c.toNat ≤ 31)
    ∨ c.toNat = 32 ∨ c.toNat = 133 ∨ c.toNat = 160 ∨ c.toNat = 5760
    ∨ (8192 ≤ c.toNat ∧ c.toNat ≤ 8202) ∨ c.toNat = 8232 ∨ c.toNat = 8233
    ∨ c.toNat = 8239 ∨ c.toNat = 8287 ∨ c.toNat = 12288)

/-- Drops leading whitespace. -/
def dropLeadingSpace : List Char → List Char
  | [] => []
  | c :: cs => if isPySpace c then dropLeadingSpace cs else c :: cs

/-- Python's `str.strip()`: removes whitespace from both ends. -/
def pyStripChars (cs : List Char) : List Char :=
  (dropLeadingSpace (dropLeadingSpace cs).reverse).reverse

/-- Python's `str.strip()` on a `String`. -/
def pyStrip (s : String) : String := String.mk (pyStripChars s.data)

/-- Value of a decimal digit character, `none` for a non-digit. -/
def digitVal? (c : Char) : Option Nat :=
  if c.isDigit then some (c.toNat - 48) else none

/-- Value of a hexadecimal digit character, `none` otherwise. -/
def hexVal? (c : Char) : Option Nat :=
  if c.isDigit then some (c.toNat - 48)
  else if 97 ≤ c.toNat ∧ c.toNat ≤ 102 then some (c.toNat - 87)
  else if 65 ≤ c.toNat ∧ c.toNat ≤ 70 then some (c.toNat - 55)
  else none

/-- Decimal value of a nonempty all-digit character list, `none` otherwise
(models `int(s, 10)` on the strings the source can feed it). -/
def decimalVal (cs : List Char) : Option Nat :=
  if cs.isEmpty then none
  else
    match cs.mapM digitVal? with
    | some ds => some (ds.foldl (fun a d => a * 10 + d) 0)
    | none => none

/-- Python `ipaddress._parse_octet`: a nonempty all-digit string of at most
three characters, without leading zeros, of value at most 255. -/
def parseOctet (cs : List Char) : Option Nat :=
  if cs.isEmpty then none
  else if cs.length > 3 then none
  else if cs.length > 1 ∧ cs.headD '0' = '0' then none
  else
    match decimalVal cs with
    | some n => if n ≤ 255 then some n else none
    | none => none

/-- Python `IPv4Address._ip_int_from_string`: exactly four octets separated
by dots. -/
def parseIPv4Chars (cs : List Char) : Option Nat :=
  match (splitOnChar '.' cs).mapM parseOctet with
  | some [a, b, c, d] => some (((a * 256 + b) * 256 + c) * 256 + d)
  | _ => none

/-- Python `IPv6Address._parse_hextet`: one to four hexadecimal digits. -/
def parseHextet (cs : List Char) : Option Nat :=
  if cs.isEmpty then none
  else if cs.length > 4 then none
  else
    match cs.mapM hexVal? with
    | some ds => some (ds.foldl (fun a d => a * 16 + d) 0)
    | none => none

/-- Folds a list of 16-bit groups into one integer, high group first. -/
def hextetsVal (hs : List Nat) : Nat := hs.foldl (fun acc h => acc * 65536 + h) 0

/-- Hexadecimal digit character (lowercase), as produced by Python's `'%x'`. -/
def hexDigitChar (n : Nat) : Char :=
  if n < 10 then Char.ofNat (48 + n) else Char.ofNat (87 + n)

/-- Auxiliary hexadecimal rendering with fuel. -/
def toHexCharsAux : Nat → Nat → List Char
  | 0, _ => []
  | _ + 1, 0 => []
  | fuel + 1, n => toHexCharsAux fuel (n / 16) ++ [hexDigitChar (n % 16)]

/-- Python's `'%x' % n`: minimal lowercase hexadecimal rendering. -/
def toHexChars (n : Nat) : List Char :=
  if n = 0 then ['0'] else toHexCharsAux 8 n

/-- Python `IPv6Address._ip_int_from_string` after splitting on colons: at
most one double colon compresses the missing zero groups; a leading or
trailing lone colon is only permitted as part of a double colon; without a
double colon there must be exactly eight groups. -/
def parseIPv6Parts (parts : List (List Char)) : Option Nat :=
  if parts.length > 9 then none
  else
    let emptiesIdx := (List.range parts.length).filter
      (fun i => decide (0 < i ∧ i + 1 < parts.length ∧ parts.getD i ['x'] = []))
    match emptiesIdx with
    | [] =>
      if parts.length ≠ 8 then none
      else if parts.headD ['x'] = [] then none
      else if parts.getLastD ['x'] = [] then none
      else
        match parts.mapM parseHextet with
        | some hs => some (hextetsVal hs)
        | none => none
    | [i] =>
      if parts.headD ['x'] = [] ∧ i ≠ 1 then none
      else if parts.getLastD ['x'] = [] ∧ i + 2 ≠ parts.length then none
      else
        let hi := if parts.headD ['x'] = [] then 0 else i
        let lo := if parts.getLastD ['x'] = [] then 0 else parts.length - i - 1
        if 8 ≤ hi + lo then none
        else
          match (parts.take hi).mapM parseHextet,
                (parts.drop (parts.length - lo)).mapM parseHextet with
          | some hv, some lv => some (hextetsVal hv * 2 ^ (16 * (8 - hi)) + hextetsVal lv)
          | _, _ => none
    | _ => none

/-- Python `IPv6Address._ip_int_from_string`: at least three colon-separated
parts; a trailing part containing a dot is an embedded IPv4 address and
expands to two 16-bit groups rendered in hexadecimal. -/
def parseIPv6Chars (cs : List Char) : Option Nat :=
  let parts := splitOnChar ':' cs
  if parts.length < 3 then none
  else if (parts.getLastD []).contains '.' then
    match parseIPv4Chars (parts.getLastD []) with
    | some v4 =>
      parseIPv6Parts (parts.dropLast ++ [toHexChars (v4 / 65536), toHexChars (v4 % 65536)])
    | none => none
  else parseIPv6Parts parts

/-- Python `IPv6Address` also accepts a nonempty scope id after a single
percent sign; the scope does not change the numeric value. -/
def parseIPv6ScopedChars (cs : List Char) : Option Nat :=
  match splitOnChar '%' cs with
  | [addr] => parseIPv6Chars addr
  | [addr, scopeId] => if scopeId.isEmpty then none else parseIPv6Chars addr
  | _ => none

/-- A parsed IP address: IPv4 or IPv6 with its numeric value. -/
inductive IPAddr where
  | v4 (val : Nat)
  | v6 (val : Nat)
deriving DecidableEq

/-- Python `ipaddress.ip_address(s)`: try IPv4 first, then IPv6; a failure of
both is a `ValueError`, modelled as `none`. -/
def ip_address (s : String) : Option IPAddr :=
  match parseIPv4Chars s.data with
  | some v => some (.v4 v)
  | none =>
    match parseIPv6ScopedChars s.data with
    | some v => some (.v6 v)
    | none => none

/-- A parsed network: family, network address already normalized by the
netmask (the `strict=False` behaviour), and the prefix length. -/
inductive IPNet where
  | v4 (network : Nat) (prefixlen : Nat)
  | v6 (network : Nat) (prefixlen : Nat)
deriving DecidableEq

/-- Python `_prefix_from_prefix_string`: an all-ASCII-digit string (so no
sign, whitespace or underscores) whose value is in `0 ..= maxLen`. -/
def parsePrefixChars (maxLen : Nat) (cs : List Char) : Option Nat :=
  match decimalVal cs with
  | some n => if n ≤ maxLen then some n else none
  | none => none

/-- Trailing zero bits of a number, with fuel. -/
def ctzAux : Nat → Nat → Nat
  | 0, _ => 0
  | fuel + 1, n => if n % 2 = 1 then 0 else ctzAux fuel (n / 2) + 1

/-- Python `_count_righthand_zero_bits`: the number of low-order zero bits,
capped at the word width; zero counts as the full width. -/
def countRighthandZeroBits (number bits : Nat) : Nat :=
  if number = 0 then bits else min bits (ctzAux bits number)

/-- Python `_prefix_from_ip_int`: accept an integer whose binary form is
ones followed by zeros as a netmask and return its prefix length; the
all-ones and all-zeros words both count as netmasks. -/
def prefixFromIpInt (ipInt maxLen : Nat) : Option Nat :=
  let trailingZeroes := countRighthandZeroBits ipInt maxLen
  let maskLen := maxLen - trailingZeroes
  let leadingOnes := ipInt >>> trailingZeroes
  let allOnes := (1 <<< maskLen) - 1
  if leadingOnes = allOnes then some maskLen else none

/-- Python `_BaseV4._prefix_from_ip_string`: parse the mask as a dotted
quad and accept it as a netmask or, failing that, as a hostmask (its
bitwise complement being a netmask). -/
def v4PrefixFromIpChars (cs : List Char) : Option Nat :=
  match parseIPv4Chars cs with
  | some ipInt =>
    match prefixFromIpInt ipInt 32 with
    | some p => some p
    | none => prefixFromIpInt (ipInt ^^^ 4294967295) 32
  | none => none

/-- Python `_BaseV4._make_netmask` on a string: the decimal prefix-length
form first, else the dotted netmask or hostmask form. (IPv6's
`_make_netmask` has no dotted arm: it accepts the decimal form only.) -/
def v4MakeNetmask (cs : List Char) : Option Nat :=
  match parsePrefixChars 32 cs with
  | some p => some p
  | none => v4PrefixFromIpChars cs

/-- Python `ipaddress.ip_network(s, strict=False)`: split on the slash (at
most one allowed), try `IPv4Network` then `IPv6Network`; the IPv4 prefix
may also be a dotted netmask or hostmask, the IPv6 address part may carry
a scope id, and with `strict=False` host bits are masked away rather than
rejected. -/
def ip_network (s : String) : Option IPNet :=
  match splitOnChar '/' s.data with
  | [addr] =>
    match parseIPv4Chars addr with
    | some v => some (.v4 v 32)
    | none =>
      match parseIPv6ScopedChars addr with
      | some v => some (.v6 v 128)
      | none => none
  | [addr, mask] =>
    match parseIPv4Chars addr, v4MakeNetmask mask with
    | some v, some p => some (.v4 ((v >>> (32 - p)) <<< (32 - p)) p)
    | _, _ =>
      match parseIPv6ScopedChars addr, parsePrefixChars 128 mask with
      | some v, some p => some (.v6 ((v >>> (128 - p)) <<< (128 - p)) p)
      | _, _ => none
  | _ => none

/-- Python `network.__contains__(address)`: `False` on a family mismatch
(never an error), otherwise an address-in-range test, which for a normalized
network address is equality of the masked candidate with the network. -/
def netContains (net : IPNet) (a : IPAddr) : Bool :=
  match net, a with
  | .v4 n p, .v4 x => (x >>> (32 - p)) <<< (32 - p) == n
  | .v6 n p, .v6 x => (x >>> (128 - p)) <<< (128 - p) == n
  | .v4 _ _, .v6 _ => false
  | .v6 _ _, .v4 _ => false

/-- The three entries appended by `IPWhitelistMiddleware.__init__` (line 35). -/
def localhostIps : List String := ["127.0.0.1", "::1", "localhost"]

/-- One iteration of the rule loop of `_is_ip_allowed` (lines 73-85): a rule
containing a slash is parsed as a CIDR network and tested for membership of
the parsed candidate; parse failure of either (the `except` clause) skips
the rule; a rule without a slash is compared for string equality. -/
def ruleMatches (ip allowed : String) : Bool :=
  if allowed.data.contains '/' then
    match ip_network allowed with
    | some network =>
      match ip_address ip with
      | some a => netContains network a
      | none => false
    | none => false
  else ip == allowed

/-- `IPWhitelistMiddleware._is_ip_allowed` (lines 66-87): fast-path exact
membership first, then the rule loop. -/
def is_ip_allowed (allowed_ips : List String) (ip : String) : Bool :=
  if allowed_ips.contains ip then true
  else allowed_ips.any (fun allowed => ruleMatches ip allowed)

/-- Lines 39-49 of `dispatch`: the effective client address. The transport
peer address is overridden by a truthy (present and nonempty)
X-Forwarded-For header's first comma-separated entry, stripped; a truthy
X-Real-IP header, stripped, overrides both. -/
def resolveClientIp (transport fwdFor realIp : Option String) : Option String :=
  let clientIp := transport
  let clientIp :=
    match fwdFor with
    | some f =>
      if f ≠ "" then some (pyStrip (String.mk ((splitOnChar ',' f.data).headD [])))
      else clientIp
    | none => clientIp
  match realIp with
  | some r => if r ≠ "" then some (pyStrip r) else clientIp
  | none => clientIp

/-- An HTTP request as the middleware sees it: path, transport peer address
(absent when `request.client` is `None`), and the two proxy headers (absent
when not sent). -/
structure Request where
  path : String
  transport : Option String
  xForwardedFor : Option String
  xRealIP : Option String
deriving DecidableEq

/-- A JSON response: status code and the body's key-value pairs. -/
structure Response where
  statusCode : Nat
  body : List (String × String)
deriving DecidableEq

/-- The fixed rejection of lines 61-64. -/
def denyResponse : Response :=
  ⟨403, [("error", "Access denied. Your IP is not whitelisted.")]⟩

/-- The `/health` endpoint (lines 214-217): status ok with FastAPI's
default 200. -/
def health_check : Response := ⟨200, [("status", "ok")]⟩

/-- `IPWhitelistMiddleware.dispatch` (lines 37-64): resolve the client
address; if the allow list holds nothing but localhost entries, pass the
request through; otherwise pass it through exactly when the client address
is truthy and allowed, and return the fixed 403 response otherwise. -/
def dispatch (allowed_ips : List String) (req : Request)
    (callNext : Request → Response) : Response :=
  let clientIp := resolveClientIp req.transport req.xForwardedFor req.xRealIP
  let nonLocalhostIps := allowed_ips.filter (fun ip => !localhostIps.contains ip)
  if nonLocalhostIps.isEmpty then callNext req
  else
    match clientIp with
    | some ip => if ip ≠ "" ∧ is_ip_allowed allowed_ips ip then callNext req else denyResponse
    | none => denyResponse

/-- The Allow/Deny outcome of lines 51-64 of `dispatch`, abstracted from the
response values. -/
inductive Decision where
  | allow
  | deny
deriving DecidableEq

/-- The decision `dispatch` takes for a given allow list and resolved
client address. -/
def decision (allowed_ips : List String) (clientIp : Option String) : Decision :=
  let nonLocalhostIps := allowed_ips.filter (fun ip => !localhostIps.contains ip)
  if nonLocalhostIps.isEmpty then .allow
  else
    match clientIp with
    | some ip => if ip ≠ "" ∧ is_ip_allowed allowed_ips ip then .allow else .deny
    | none => .deny

/-- `IPWhitelistMiddleware.__init__` (lines 31-35): the configured entries
with the three localhost entries appended at the end. -/
def buildAllowList (configured : List String) : List String :=
  configured ++ localhostIps

/-- The middleware object: its only field is the allow list built at
startup. -/
structure IPWhitelistMiddleware where
  allowed_ips : List String
deriving DecidableEq

/-- `IPWhitelistMiddleware.__init__` as a constructor of the object state. -/
def IPWhitelistMiddleware.init (allowed_ips : List String) : IPWhitelistMiddleware :=
  ⟨allowed_ips ++ localhostIps⟩

/-- `dispatch` as a state-passing method: the source reads
`self.allowed_ips` and never assigns or mutates it inside `dispatch` or
`_is_ip_allowed`, so the post-state is the input state. -/
def IPWhitelistMiddleware.dispatchM (m : IPWhitelistMiddleware) (req : Request)
    (callNext : Request → Response) : Response × IPWhitelistMiddleware :=
  (dispatch m.allowed_ips req callNext, m)

/-- Lines 91-92: the ALLOWED_IPS environment string parsed into entries —
split on commas, stripped, empties dropped; an empty or unset variable
yields the empty list. -/
def parseAllowedIpsEnv (s : String) : List String :=
  if s ≠ "" then
    ((splitOnChar ',' s.data).map (fun cs => pyStrip (String.mk cs))).filter
      (fun ip => ip != "")
  else []

/-- Membership and the boolean `contains` agree on lists of strings. -/
theorem contains_true_iff_mem (l : List String) (a : String) :
    l.contains a = true ↔ a ∈ l := by simp

/-- A list all of whose elements are localhost entries filters to nothing
under the non-localhost filter of lines 53-54. -/
theorem filter_nonLocalhost_nil (l : List String) (h : ∀ e ∈ l, e ∈ localhostIps) :
    l.filter (fun ip => !localhostIps.contains ip) = [] := by
  refine List.filter_eq_nil_iff.mpr (fun a ha => ?_)
  simp [contains_true_iff_mem, h a ha]

/-- When the non-localhost filter leaves nothing, the decision is Allow. -/
theorem decision_allow_of_filter_nil (l : List String)
    (h : l.filter (fun ip => !localhostIps.contains ip) = []) (c : Option String) :
    decision l c = .allow := by
  unfold decision
  rw [h]
  rfl

/-- When the non-localhost filter leaves nothing, dispatch passes through. -/
theorem dispatch_passes_of_filter_nil (l : List String)
    (h : l.filter (fun ip => !localhostIps.contains ip) = []) (req : Request)
    (cn : Request → Response) :
    dispatch l req cn = cn req := by
  unfold dispatch
  rw [h]
  rfl

/-- C1: if the AllowList minus the three implicit localhost entries is
empty, the middleware's decision is Allow for every candidate address, and
every request is passed through to the wrapped handler unchanged,
independently of the matcher. -/
theorem c1_fail_open_unconfigured :
    ∀ (allowed_ips : List String),
      allowed_ips.filter (fun ip => !localhostIps.contains ip) = [] →
      (∀ clientIp, decision allowed_ips clientIp = .allow)
      ∧ ∀ (req : Request) (callNext : Request → Response),
          dispatch allowed_ips req callNext = callNext req := by
  intro l h
  exact ⟨decision_allow_of_filter_nil l h, dispatch_passes_of_filter_nil l h⟩

/-- Witness for C1: the default allow list, holding only the localhost
entries, lets an arbitrary outside address through. -/
theorem c1_witness :
    decision ["127.0.0.1", "::1", "localhost"] (some "8.8.8.8") = .allow :=
  (c1_fail_open_unconfigured ["127.0.0.1", "::1", "localhost"] (by decide)).1 (some "8.8.8.8")

/-- C9: the AllowList is built once at startup as the configured entries
followed by the three localhost entries; `dispatch` leaves the middleware
state unchanged, so a repeated identical request against the unchanged
state yields the identical response. -/
theorem c9_allowlist_immutable :
    ∀ (configured : List String) (req : Request) (callNext : Request → Response)
      (m : IPWhitelistMiddleware),
      (IPWhitelistMiddleware.init configured).allowed_ips
          = configured ++ ["127.0.0.1", "::1", "localhost"]
      ∧ (m.dispatchM req callNext).2 = m
      ∧ ((m.dispatchM req callNext).2.dispatchM req callNext).1
          = (m.dispatchM req callNext).1 := by
  intro cfg req cn m
  exact ⟨rfl, rfl, rfl⟩

/-- C10: when every explicitly configured entry is itself one of the three
localhost strings, the emptiness test of lines 53-54 filters out the whole
list and the decision is Allow for every request and candidate address;
in particular an environment string configuring exactly the localhost
entries still yields the fail-open behaviour. -/
theorem c10_localhost_only_config :
    ∀ (configured : List String),
      (∀ e ∈ configured, e ∈ localhostIps) →
      (∀ clientIp, decision (buildAllowList configured) clientIp = .allow)
      ∧ (∀ (req : Request) (callNext : Request → Response),
          dispatch (buildAllowList configured) req callNext = callNext req)
      ∧ (∀ clientIp,
          decision (buildAllowList (parseAllowedIpsEnv "127.0.0.1, ::1,localhost"))
            clientIp = .allow) := by
  intro cfg h
  have hall : ∀ e ∈ buildAllowList cfg, e ∈ localhostIps := by
    intro e he
    rcases List.mem_append.mp he with h1 | h2
    · exact h e h1
    · exact h2
  have hf := filter_nonLocalhost_nil _ hall
  have hf2 : (buildAllowList (parseAllowedIpsEnv "127.0.0.1, ::1,localhost")).filter
      (fun ip => !localhostIps.contains ip) = [] := by decide
  exact ⟨decision_allow_of_filter_nil _ hf, dispatch_passes_of_filter_nil _ hf,
    decision_allow_of_filter_nil _ hf2⟩

/-- Witness for C10: configuring only localhost strings still allows an
outside address. -/
theorem c10_witness :
    decision (buildAllowList ["localhost", "127.0.0.1"]) (some "8.8.4.4") = .allow :=
  (c10_localhost_only_config ["localhost", "127.0.0.1"] (by decide)).1 (some "8.8.4.4")

/-- C2 counterexample: the middleware applies to GET /health uniformly, so
with an active whitelist a non-whitelisted client receives the 403 denial
and not 200 with status ok. -/
theorem c2_counterexample :
    dispatch (buildAllowList ["1.2.3.4"]) ⟨"/health", some "5.6.7.8", none, none⟩
        (fun _ => health_check)
      = ⟨403, [("error", "Access denied. Your IP is not whitelisted.")]⟩
    ∧ (⟨403, [("error", "Access denied. Your IP is not whitelisted.")]⟩ : Response)
        ≠ ⟨200, [("status", "ok")]⟩ :=
  ⟨by decide, by decide⟩

/-- C2 (amended): whenever the AllowList minus the localhost entries is
empty — in particular for the default localhost-only AllowList — every GET
/health request is answered 200 with body status ok, regardless of the
resolved client address; with an active whitelist the middleware applies
uniformly, so a non-whitelisted client gets the 403 denial instead. -/
theorem c2_health_amended :
    (∀ (allowed_ips : List String) (req : Request) (callNext : Request → Response),
      allowed_ips.filter (fun ip => !localhostIps.contains ip) = [] →
      req.path = "/health" → callNext req = health_check →
      dispatch allowed_ips req callNext = ⟨200, [("status", "ok")]⟩)
    ∧ dispatch (buildAllowList []) ⟨"/health", some "203.0.113.9", none, none⟩
        (fun _ => health_check) = ⟨200, [("status", "ok")]⟩
    ∧ dispatch (buildAllowList ["1.2.3.4"]) ⟨"/health", some "5.6.7.8", none, none⟩
        (fun _ => health_check) = denyResponse := by
  refine ⟨?_, by decide, by decide⟩
  intro l req cn h hp hcn
  rw [dispatch_passes_of_filter_nil l h req cn, hcn]
  rfl

/-- Witness for C2: a /health request through the default localhost-only
allow list is answered 200 with status ok. -/
theorem c2_witness :
    dispatch ["127.0.0.1", "::1", "localhost"] ⟨"/health", some "9.9.9.9", none, none⟩
      (fun _ => health_check) = ⟨200, [("status", "ok")]⟩ :=
  c2_health_amended.1 ["127.0.0.1", "::1", "localhost"]
    ⟨"/health", some "9.9.9.9", none, none⟩ (fun _ => health_check) (by decide) rfl rfl

/-- C3 counterexample: an X-Real-IP header that is present but empty is
falsy in the source and does not win; the transport address is kept,
whereas the claim as stated predicts the trimmed (empty) header value. -/
theorem c3_counterexample :
    resolveClientIp (some "1.1.1.1") none (some "") = some "1.1.1.1"
    ∧ pyStrip "" = ""
    ∧ ("1.1.1.1" : String) ≠ "" :=
  ⟨rfl, rfl, by decide⟩

/-- C3 (amended): the precedence is as claimed except that a header only
takes effect when present with a nonempty value: a nonempty X-Real-IP wins
(stripped), otherwise a nonempty X-Forwarded-For contributes its first
comma-separated entry (stripped), otherwise the transport address is used;
the claim's two concrete examples hold as stated. -/
theorem c3_resolver_amended :
    (∀ (t f : Option String) (s : String), s ≠ "" →
        resolveClientIp t f (some s) = some (pyStrip s))
    ∧ (∀ (t : Option String) (s : String) (r : Option String), s ≠ "" →
        (r = none ∨ r = some "") →
        resolveClientIp t (some s) r
          = some (pyStrip (String.mk ((splitOnChar ',' s.data).headD []))))
    ∧ (∀ (t f r : Option String), (f = none ∨ f = some "") →
        (r = none ∨ r = some "") → resolveClientIp t f r = t)
    ∧ resolveClientIp (some "1.1.1.1") (some "2.2.2.2, 3.3.3.3") none = some "2.2.2.2"
    ∧ resolveClientIp (some "1.1.1.1") (some "2.2.2.2") (some "4.4.4.4") = some "4.4.4.4" := by
  refine ⟨?_, ?_, ?_, by decide, by decide⟩
  · intro t f s hs
    simp [resolveClientIp, hs]
  · intro t s r hs hr
    rcases hr with rfl | rfl <;> simp [resolveClientIp, hs]
  · intro t f r hf hr
    rcases hf with rfl | rfl <;> rcases hr with rfl | rfl <;> simp [resolveClientIp]

/-- Witness for C3: a nonempty X-Real-IP header wins. -/
theorem c3_witness :
    resolveClientIp none none (some "4.4.4.4") = some (pyStrip "4.4.4.4") :=
  c3_resolver_amended.1 none none "4.4.4.4" (by decide)

/-- A resolver result can only be absent when the transport address is
absent and both headers are absent or empty. -/
theorem resolveClientIp_none_shape (t f r : Option String)
    (h : resolveClientIp t f r = none) :
    t = none ∧ (f = none ∨ f = some "") ∧ (r = none ∨ r = some "") := by
  cases r with
  | some rv =>
    by_cases hrv : rv = ""
    · subst hrv
      cases f with
      | some fv =>
        by_cases hfv : fv = ""
        · subst hfv
          cases t with
          | some tv => simp [resolveClientIp] at h
          | none => exact ⟨rfl, Or.inr rfl, Or.inr rfl⟩
        · simp [resolveClientIp, hfv] at h
      | none =>
        cases t with
        | some tv => simp [resolveClientIp] at h
        | none => exact ⟨rfl, Or.inl rfl, Or.inr rfl⟩
    · simp [resolveClientIp, hrv] at h
  | none =>
    cases f with
    | some fv =>
      by_cases hfv : fv = ""
      · subst hfv
        cases t with
        | some tv => simp [resolveClientIp] at h
        | none => exact ⟨rfl, Or.inr rfl, Or.inl rfl⟩
      · simp [resolveClientIp, hfv] at h
    | none =>
      cases t with
      | some tv => simp [resolveClientIp] at h
      | none => exact ⟨rfl, Or.inl rfl, Or.inl rfl⟩

/-- C8 counterexample: with no transport address, a present-but-empty
X-Forwarded-For header, and no X-Real-IP header, the resolver yields
nothing although a forwarding header was present on the request. -/
theorem c8_counterexample :
    resolveClientIp none (some "") none = none
    ∧ (some "" : Option String) ≠ none :=
  ⟨rfl, by decide⟩

/-- C8 (amended): the resolver's result is absent only if the transport
address is absent and each of the two headers is absent or empty; whenever
the transport address is present, or either header is present with a
nonempty value, the resolver produces some string. -/
theorem c8_resolver_absence_amended :
    ∀ (t f r : Option String),
      (resolveClientIp t f r = none →
        t = none ∧ (f = none ∨ f = some "") ∧ (r = none ∨ r = some ""))
      ∧ ((t ≠ none ∨ (∃ s, f = some s ∧ s ≠ "") ∨ (∃ s, r = some s ∧ s ≠ "")) →
          ∃ x, resolveClientIp t f r = some x) := by
  intro t f r
  refine ⟨resolveClientIp_none_shape t f r, ?_⟩
  intro hd
  cases hres : resolveClientIp t f r with
  | some x => exact ⟨x, rfl⟩
  | none =>
    obtain ⟨h1, h2, h3⟩ := resolveClientIp_none_shape t f r hres
    rcases hd with ht | ⟨s, hf, hs⟩ | ⟨s, hr, hs⟩
    · exact absurd h1 ht
    · rcases h2 with h2 | h2
      · rw [hf] at h2; exact Option.noConfusion h2
      · rw [hf] at h2; exact (hs (Option.some.inj h2)).elim
    · rcases h3 with h3 | h3
      · rw [hr] at h3; exact Option.noConfusion h3
      · rw [hr] at h3; exact (hs (Option.some.inj h3)).elim

/-- Witness for C8: a present transport address yields a present result. -/
theorem c8_witness :
    ∃ x, resolveClientIp (some "1.2.3.4") none none = some x :=
  (c8_resolver_absence_amended (some "1.2.3.4") none none).2 (Or.inl (by decide))

/-- Membership in the exact-match fast path is unaffected by removing a
rule the candidate differs from. -/
theorem contains_append_cons (l1 l2 : List String) (b ip : String) (h : ip ≠ b) :
    (l1 ++ b :: l2).contains ip = (l1 ++ l2).contains ip := by
  rw [Bool.eq_iff_iff]
  simp [contains_true_iff_mem, h]

/-- C4: the matcher is a total boolean function; a slash rule the network
parser rejects — the parser honouring the dotted netmask, hostmask and
scoped-IPv6 forms Python accepts — is skipped and the scan of the
remaining rules continues unchanged, and a family mismatch between a
rule's network and the candidate merely fails to match that rule; valid
rules elsewhere in the list still match, including the dotted-netmask
form. -/
theorem c4_matcher_total_skip :
    (∀ (ip : String) (pre post : List String) (bad : String),
        bad.data.contains '/' = true → ip_network bad = none → ip ≠ bad →
        is_ip_allowed (pre ++ bad :: post) ip = is_ip_allowed (pre ++ post) ip)
    ∧ (∀ (n p x : Nat),
        netContains (.v4 n p) (.v6 x) = false ∧ netContains (.v6 n p) (.v4 x) = false)
    ∧ is_ip_allowed (buildAllowList ["not-an-ip/33", "203.0.113.5"]) "203.0.113.5" = true
    ∧ is_ip_allowed (buildAllowList ["::1/128", "not-an-ip/33", "10.0.0.0/8"]) "10.1.2.3" = true
    ∧ is_ip_allowed (buildAllowList ["not-an-ip/33"]) "9.9.9.9" = false
    ∧ ip_network "10.0.0.0/255.0.0.0" = some (.v4 167772160 8)
    ∧ is_ip_allowed (buildAllowList ["10.0.0.0/255.0.0.0"]) "10.1.2.3" = true
    ∧ ip_network "10.0.0.0/0.255.255.255" = some (.v4 167772160 8)
    ∧ ip_network "::1%eth0/128" = some (.v6 1 128) := by
  refine ⟨?_, fun n p x => ⟨rfl, rfl⟩, by decide, by decide, by decide,
    by decide, by decide, by decide, by decide⟩
  intro ip pre post bad hslash hnone hne
  have hb : ruleMatches ip bad = false := by
    simp [ruleMatches, hnone, hne]
  unfold is_ip_allowed
  rw [contains_append_cons pre post bad ip hne]
  simp [List.any_append, List.any_cons, hb]

/-- Witness for C4: the malformed rule not-an-ip slash 33 in front of a
valid exact rule changes nothing; the valid rule still matches. -/
theorem c4_witness :
    is_ip_allowed ([] ++ "not-an-ip/33" :: ["203.0.113.5", "127.0.0.1", "::1", "localhost"])
        "203.0.113.5"
      = is_ip_allowed ([] ++ ["203.0.113.5", "127.0.0.1", "::1", "localhost"]) "203.0.113.5" :=
  c4_matcher_total_skip.1 "203.0.113.5" [] ["203.0.113.5", "127.0.0.1", "::1", "localhost"]
    "not-an-ip/33" (by decide) (by decide) (by decide)

/-- C6: string equality with any rule makes the matcher return true
immediately, the literal localhost rule included; a rule without a slash
matches by exact string comparison only, so 203.0.113.5 is allowed exactly
and 203.0.113.6 is denied. -/
theorem c6_exact_match :
    (∀ (rules : List String) (ip : String), rules.contains ip = true →
        is_ip_allowed rules ip = true)
    ∧ (∀ (ip rule : String), rule.data.contains '/' = false →
        ruleMatches ip rule = (ip == rule))
    ∧ is_ip_allowed (buildAllowList []) "localhost" = true
    ∧ decision (buildAllowList ["203.0.113.5"]) (some "203.0.113.5") = .allow
    ∧ decision (buildAllowList ["203.0.113.5"]) (some "203.0.113.6") = .deny := by
  refine ⟨?_, ?_, by decide, by decide, by decide⟩
  · intro rules ip hc
    unfold is_ip_allowed
    rw [if_pos hc]
  · intro ip rule h
    have hnm : '/' ∉ rule.data := by simpa using h
    simp [ruleMatches, hnm]

/-- Witness for C6: exact string equality with a configured rule. -/
theorem c6_witness :
    is_ip_allowed (buildAllowList ["203.0.113.5"]) "203.0.113.5" = true :=
  c6_exact_match.1 (buildAllowList ["203.0.113.5"]) "203.0.113.5" (by decide)

/-- C7: with an active whitelist, a request whose resolved address is
absent or fails the matcher is answered by the fixed 403 JSON response,
whatever the wrapped handler would have returned: the handler result never
appears in the denial. -/
theorem c7_deny_structured :
    ∀ (allowed_ips : List String) (req : Request) (callNext : Request → Response),
      allowed_ips.filter (fun ip => !localhostIps.contains ip) ≠ [] →
      (∀ ip, resolveClientIp req.transport req.xForwardedFor req.xRealIP = some ip →
        is_ip_allowed allowed_ips ip = false) →
      dispatch allowed_ips req callNext
        = ⟨403, [("error", "Access denied. Your IP is not whitelisted.")]⟩ := by
  intro l req cn hne hm
  have hie : (l.filter (fun ip => !localhostIps.contains ip)).isEmpty = false := by
    rcases hl : l.filter (fun ip => !localhostIps.contains ip) with _ | ⟨a, as⟩
    · exact absurd hl hne
    · rfl
  cases hres : resolveClientIp req.transport req.xForwardedFor req.xRealIP with
  | none =>
    simp only [dispatch]
    rw [hres, hie]
    rfl
  | some ip =>
    have hip := hm ip hres
    simp only [dispatch]
    rw [hres, hie]
    simp [hip, denyResponse]

/-- Witness for C7: an active whitelist denies an address that matches no
rule, with the fixed 403 body. -/
theorem c7_witness :
    dispatch ["1.2.3.4", "127.0.0.1", "::1", "localhost"]
        ⟨"/api/referral-balances", some "9.9.9.9", none, none⟩ (fun _ => health_check)
      = ⟨403, [("error", "Access denied. Your IP is not whitelisted.")]⟩ :=
  c7_deny_structured ["1.2.3.4", "127.0.0.1", "::1", "localhost"]
    ⟨"/api/referral-balances", some "9.9.9.9", none, none⟩ (fun _ => health_check)
    (by decide)
    (fun ip h => by
      have hip : ("9.9.9.9" : String) = ip := Option.some.inj h
      rw [← hip]
      decide)
